import Mathlib

/-!
Shallow embedding of the IndiByte (Bytelense) backend scan pipeline.

Sources embedded (Python, `src/Bytelense/backend/`):
- `app/services/citation_manager.py`   (CitationManager)
- `app/services/health_modeling.py`    (HealthModelingEngine)
- `app/services/nutrition_api.py`      (NutritionDataAggregator)
- `app/services/scoring.py`            (NutritionScoringService)
- `app/models/dspy_modules.py`         (DataCleanerAgent.clean)
- `app/core/profile_store.py`          (ProfileStore keying)
- `app/api/scan.py`                    (start_scan orchestration)

Conventions: Python floats are modelled as rationals; Python dicts as
insertion-ordered association lists; wall-clock stamps (datetime.now) as an
explicit natural-number argument; the outcomes of awaited external calls
(image analyzer, providers, profile store, reasoning agent) as explicit
parameters of the orchestration functions.
-/

/-! ### String helpers (Python `in`, `lower`, truthiness) -/

/-- Does the needle match at the head of the haystack (character lists)? -/
def subAt : List Char → List Char → Bool
  | [], _ => true
  | _ :: _, [] => false
  | c :: cs, d :: ds => c == d && subAt cs ds

/-- Does the needle occur somewhere in the haystack (character lists)?
Mirrors Python `needle in haystack` for strings. -/
def hasSub (ns : List Char) : List Char → Bool
  | [] => ns.isEmpty
  | d :: ds => subAt ns (d :: ds) || hasSub ns ds

/-- Python `needle in haystack` on strings. -/
def strContains (needle haystack : String) : Bool :=
  hasSub needle.toList haystack.toList

/-- Python truthiness of an `Optional[str]`: `None` and `""` are falsy. -/
def strTruthy : Option String → Bool
  | none => false
  | some s => !s.isEmpty

/-- Python `s.lower()`, character by character (equal to `String.map
Char.toLower`, spelled out on the character list). -/
def lowerStr (s : String) : String :=
  String.mk (s.toList.map Char.toLower)

/-! ### Citation ledger (`citation_manager.py`, class CitationManager) -/

/-- One entry of `CitationManager.sources` (the dict appended in
`add_source`); the `accessed` wall-clock stamp is a ℕ supplied by the
caller in place of `datetime.now()`. -/
structure SourceRec where
  id : ℕ
  url : String
  title : String
  snippet : String
  accessed : ℕ
  source_type : String
deriving Repr, DecidableEq

/-- State of `CitationManager`: `sources` list, the url→id `citation_map`
(insertion-ordered association list) and the `next_id` counter. -/
structure CitationManager where
  sources : List SourceRec
  citation_map : List (String × ℕ)
  next_id : ℕ
deriving Repr, DecidableEq

/-- `CitationManager.__init__`. -/
def CitationManager.init : CitationManager := ⟨[], [], 1⟩

/-- Dict lookup `self.citation_map[url]` guarded by `url in self.citation_map`. -/
def mapLookup (m : List (String × ℕ)) (url : String) : Option ℕ :=
  (m.find? (fun p => p.1 == url)).map (fun p => p.2)

/-- `CitationManager.add_source(url, title, snippet, source_type)`.
Returns the new state together with the returned citation id. -/
def CitationManager.add_source (cm : CitationManager)
    (url title snippet source_type : String) (now : ℕ) :
    CitationManager × ℕ :=
  match mapLookup cm.citation_map url with
  | some cid => (cm, cid)
  | none =>
      let cid := cm.next_id
      ({ sources := cm.sources ++
            [⟨cid, url, title, snippet.take 200, now, source_type⟩],
         citation_map := cm.citation_map ++ [(url, cid)],
         next_id := cm.next_id + 1 }, cid)

/-- One recorded `add_source` call. -/
structure CitationCall where
  url : String
  title : String
  snippet : String
  source_type : String
  now : ℕ
deriving Repr, DecidableEq

/-- Run a sequence of `add_source` calls against a ledger state. -/
def runCitationCalls (cm : CitationManager) : List CitationCall → CitationManager
  | [] => cm
  | c :: cs =>
      runCitationCalls (cm.add_source c.url c.title c.snippet c.source_type c.now).1 cs

/-- The urls of a call sequence in first-seen order. -/
def firstSeenAux (seen : List String) : List String → List String
  | [] => []
  | u :: rest =>
      if u ∈ seen then firstSeenAux seen rest
      else u :: firstSeenAux (u :: seen) rest

/-- First occurrence of each url, in call order. -/
def firstSeen (l : List String) : List String := firstSeenAux [] l

/-! ### BMR (`health_modeling.py`, `_calculate_bmr_mifflin`) -/

/-- `HealthModelingEngine._calculate_bmr_mifflin`. -/
def calculateBmrMifflin (weight_kg height_cm : ℚ) (age : ℤ) (gender : String) : ℚ :=
  let base : ℚ := 10 * weight_kg + 6.25 * height_cm - 5 * (age : ℚ)
  if gender = "male" then base + 5
  else if gender = "female" then base - 161
  else base - 78

/-! ### Python-style rounding (`round(x, n)`, half-to-even) -/

/-- Python `round` to an integer: round-half-to-even. -/
def roundHalfEven (q : ℚ) : ℤ :=
  let f : ℤ := ⌊q⌋
  let r : ℚ := q - (f : ℚ)
  if r < 1 / 2 then f
  else if 1 / 2 < r then f + 1
  else if f % 2 = 0 then f else f + 1

/-- Python `round(q, ndigits)`. -/
def pyRound (ndigits : ℕ) (q : ℚ) : ℚ :=
  (roundHalfEven (q * 10 ^ ndigits) : ℚ) / 10 ^ ndigits

/-- `q` has at most `n` decimal places (is an integer multiple of `10⁻ⁿ`).
This is how "rounded to `n` decimal places" is observable on the output,
independently of the rounding mode. -/
def decimalsAtMost (n : ℕ) (q : ℚ) : Prop := ∃ k : ℤ, q * 10 ^ n = k

/-! ### Health modeling data (`schemas.py` shapes used by `health_modeling.py`) -/

/-- `Demographics` (schemas.py): age, gender, height, weight. -/
structure Demographics where
  age : ℤ
  gender : String
  height_cm : ℚ
  weight_kg : ℚ
deriving Repr, DecidableEq

/-- `work_style` literal values. -/
inductive WorkStyle where
  | desk_job | light_activity | physical_job
deriving Repr, DecidableEq

/-- `exercise_frequency` literal values
("rarely", "1-2_times_week", "3-4_times_week", "5_times_week", "daily"). -/
inductive ExerciseFrequency where
  | rarely | oneToTwoPerWeek | threeToFourPerWeek | fivePerWeek | daily
deriving Repr, DecidableEq

/-- `commute_type` literal values. -/
inductive CommuteType where
  | car | public_transport | bike | walk
deriving Repr, DecidableEq

/-- `LifestyleHabits` (schemas.py). -/
structure LifestyleHabits where
  sleep_hours : ℚ
  work_style : WorkStyle
  exercise_frequency : ExerciseFrequency
  commute_type : CommuteType
  smoking : String
  alcohol : String
  stress_level : String
deriving Repr, DecidableEq

/-- Health goals as read by `health_modeling.py` (`goals.target_weight_kg`,
`goals.fitness_goal`). -/
structure HealthGoals where
  fitness_goal : String
  target_weight_kg : ℚ
deriving Repr, DecidableEq

/-- `HealthMetrics` as constructed by `calculate_metrics`. -/
structure HealthMetrics where
  bmi : ℚ
  bmi_category : String
  bmr : ℚ
  tdee : ℚ
  target_calories : ℚ
  health_risks : List String
deriving Repr, DecidableEq

/-- `DailyTargets` (schemas.py). -/
structure DailyTargets where
  calories : ℚ
  protein_g : ℚ
  carbs_g : ℚ
  fat_g : ℚ
  fiber_g : ℚ
  sugar_g : ℚ
  sodium_mg : ℚ
deriving Repr, DecidableEq

/-! ### Health Modeling Engine (`health_modeling.py`) -/

/-- `HealthModelingEngine._calculate_bmi`. -/
def calculateBmi (height_cm weight_kg : ℚ) : ℚ :=
  weight_kg / (height_cm / 100) ^ 2

/-- `HealthModelingEngine._get_bmi_category`: first matching half-open
range of `BMI_CATEGORIES` in insertion order, default "obese". -/
def getBmiCategory (bmi : ℚ) : String :=
  if 0 ≤ bmi ∧ bmi < 18.5 then "underweight"
  else if 18.5 ≤ bmi ∧ bmi < 25 then "normal"
  else if 25 ≤ bmi ∧ bmi < 30 then "overweight"
  else "obese"

/-- `WORK_STYLE_MULTIPLIER` table. -/
def workStyleMultiplier : WorkStyle → ℚ
  | .desk_job => 1.2
  | .light_activity => 1.375
  | .physical_job => 1.55

/-- `EXERCISE_BONUS` table. -/
def exerciseBonus : ExerciseFrequency → ℚ
  | .rarely => 0
  | .oneToTwoPerWeek => 0.05
  | .threeToFourPerWeek => 0.1
  | .fivePerWeek => 0.15
  | .daily => 0.2

/-- `COMMUTE_BONUS` table. -/
def commuteBonus : CommuteType → ℚ
  | .car => 0
  | .public_transport => 0.02
  | .bike => 0.08
  | .walk => 0.05

/-- `HealthModelingEngine._calculate_activity_multiplier`. -/
def activityMultiplier (l : LifestyleHabits) : ℚ :=
  let base := workStyleMultiplier l.work_style
  let penalties : ℚ :=
    (if l.sleep_hours < 6 then 0.05 else 0) +
    (if l.smoking = "yes" then 0.03 else 0)
  let total := base + exerciseBonus l.exercise_frequency +
    commuteBonus l.commute_type - penalties
  max 1.2 (min 2.5 total)

/-- `HealthModelingEngine._adjust_calories_for_goal`. -/
def adjustCaloriesForGoal (tdee target_weight current_weight : ℚ) : ℚ :=
  if target_weight < current_weight then tdee - 500
  else if current_weight < target_weight then tdee + 300
  else tdee

/-- `HealthModelingEngine._assess_health_risks`. -/
def assessHealthRisks (bmi_category : String) (l : LifestyleHabits) : List String :=
  (if bmi_category = "underweight" then ["underweight_malnutrition_risk"]
   else if bmi_category = "overweight" then ["overweight_cardiovascular_risk"]
   else if bmi_category = "obese" then ["obesity_multiple_disease_risk"]
   else []) ++
  (if l.sleep_hours < 6 then ["insufficient_sleep"] else []) ++
  (if l.smoking = "yes" then ["smoking_health_hazard"] else []) ++
  (if l.alcohol = "heavy" then ["excessive_alcohol_consumption"] else []) ++
  (if l.exercise_frequency = ExerciseFrequency.rarely then ["sedentary_lifestyle"] else [])

/-- `HealthModelingEngine._calculate_daily_targets`. -/
def calculateDailyTargets (target_calories : ℚ) (g : HealthGoals)
    (gender : String) : DailyTargets :=
  let protein_g :=
    if g.fitness_goal = "muscle_gain" then target_calories * 0.30 / 4
    else target_calories * 0.20 / 4
  let carbs_g :=
    if g.fitness_goal = "weight_loss" then target_calories * 0.40 / 4
    else target_calories * 0.50 / 4
  let fat_g := target_calories * 0.25 / 9
  let fiber_g : ℚ := if gender = "male" then 30 else 25
  let sugar_g := target_calories * 0.10 / 4
  let sodium_mg : ℚ := 2000
  { calories := pyRound 1 target_calories
    protein_g := pyRound 1 protein_g
    carbs_g := pyRound 1 carbs_g
    fat_g := pyRound 1 fat_g
    fiber_g := pyRound 1 fiber_g
    sugar_g := pyRound 1 sugar_g
    sodium_mg := pyRound 1 sodium_mg }

/-- `HealthModelingEngine.calculate_metrics`. -/
def calculateMetrics (d : Demographics) (l : LifestyleHabits) (g : HealthGoals) :
    HealthMetrics × DailyTargets :=
  let bmi := calculateBmi d.height_cm d.weight_kg
  let bmi_category := getBmiCategory bmi
  let bmr := calculateBmrMifflin d.weight_kg d.height_cm d.age d.gender
  let mult := activityMultiplier l
  let tdee := bmr * mult
  let target_calories := adjustCaloriesForGoal tdee g.target_weight_kg d.weight_kg
  let health_risks := assessHealthRisks bmi_category l
  ({ bmi := pyRound 2 bmi
     bmi_category := bmi_category
     bmr := pyRound 1 bmr
     tdee := pyRound 1 tdee
     target_calories := pyRound 1 target_calories
     health_risks := health_risks },
   calculateDailyTargets target_calories g d.gender)

/-! ### Python values and dicts (for `model_dump()` dicts fed to the cleaner) -/

/-- A Python value as far as `DataCleanerAgent.clean` can observe it:
a number, a string (carrying whether `float(s)` succeeds and whether the
string is empty), `None`, or any other object with its truthiness.
`float(s)` partiality is abstracted as the `coerced` component. -/
inductive PyVal where
  | num (q : ℚ)
  | pystr (coerced : Option ℚ) (empty : Bool)
  | noneVal
  | other (truthy : Bool)
deriving Repr, DecidableEq

/-- Python truthiness of a value (`not raw_data.get(f)` uses this). -/
def PyVal.truthy : PyVal → Bool
  | .num q => q != 0
  | .pystr _ e => !e
  | .noneVal => false
  | .other t => t

/-- `float(v)`: numbers coerce to themselves, strings per their annotated
coercibility, `None` and other objects raise (modelled as `none`). -/
def PyVal.coerceFloat : PyVal → Option ℚ
  | .num q => some q
  | .pystr c _ => c
  | .noneVal => none
  | .other _ => none

/-- An insertion-ordered Python dict with string keys. -/
abbrev PyDict := List (String × PyVal)

/-- `d.get(k)` (returns `none` when the key is absent). -/
def getVal : PyDict → String → Option PyVal
  | [], _ => none
  | (k', v') :: rest, k => if k' == k then some v' else getVal rest k

/-- `d[k] = v`: replace the value at an existing key in place (Python
dicts keep insertion order and have unique keys), else append. -/
def setVal : PyDict → String → PyVal → PyDict
  | [], k, v => [(k, v)]
  | (k', v') :: rest, k, v =>
      if k' == k then (k, v) :: rest else (k', v') :: setVal rest k v

/-! ### Data cleaner (`dspy_modules.py`, `DataCleanerAgent.clean`) -/

/-- The `required_fields` list of `clean`. -/
def requiredFields : List String :=
  ["product_name", "calories", "protein_g", "carbs_g", "fat_g"]

/-- The `numeric_fields` list of `clean`. -/
def numericFields : List String :=
  ["calories", "protein_g", "carbs_g", "fat_g",
   "sugar_g", "sodium_mg", "fiber_g", "saturated_fat_g"]

/-- Is `raw_data.get(f)` falsy (the "missing" test of `clean`)? -/
def fieldMissing (d : PyDict) (f : String) : Bool :=
  match getVal d f with
  | none => true
  | some v => !v.truthy

/-- One iteration of the numeric-coercion loop of `clean`:
`if field in cleaned and cleaned[field] is not None: try float ...`. -/
def cleanNumericStep (acc : PyDict × ℚ) (f : String) : PyDict × ℚ :=
  match getVal acc.1 f with
  | none => acc
  | some v =>
      if v = PyVal.noneVal then acc
      else
        match v.coerceFloat with
        | some q => (setVal acc.1 f (.num q), acc.2)
        | none => (setVal acc.1 f (.num 0), acc.2 - 0.05)

/-- `DataCleanerAgent.clean(raw_data)`: returns `(cleaned, quality_score)`.
A non-numeric `confidence` value would raise in Python; such dicts are
outside this model (the branch leaves the score unchanged here). -/
def DataCleanerAgent.clean (raw : PyDict) : PyDict × ℚ :=
  let missing := requiredFields.filter (fun f => fieldMissing raw f)
  let q0 : ℚ := if missing.isEmpty then 1 else 1 - 0.2 * missing.length
  let cleanedAndQ := numericFields.foldl cleanNumericStep (raw, q0)
  let q1 :=
    match getVal cleanedAndQ.1 "confidence" with
    | some (PyVal.num c) => if c < 0.7 then cleanedAndQ.2 * c else cleanedAndQ.2
    | _ => cleanedAndQ.2
  (cleanedAndQ.1, max q1 0)

/-! ### Nutrition data and profiles (shapes used by `scoring.py` / `nutrition_api.py`) -/

/-- `NutritionData` as constructed by `nutrition_api.py` and consumed by
`scoring.py` (duck-typed fields actually read/written by those modules). -/
structure NutritionData where
  product_name : String
  calories : ℚ
  protein_g : ℚ
  carbs_g : ℚ
  fat_g : ℚ
  saturated_fat_g : ℚ
  sugar_g : ℚ
  sodium_mg : ℚ
  fiber_g : Option ℚ
  ingredients : List String
  allergens : List String
  data_source : String
  barcode : Option String
  confidence : ℚ
deriving Repr, DecidableEq

/-- User profile as read by `scoring.py` (`user_profile.name`,
`user_profile.allergies`, `user_profile.daily_targets`). -/
structure UserProfile where
  name : String
  allergies : List String
  daily_targets : DailyTargets
deriving Repr, DecidableEq

/-- `Citation` objects produced by
`CitationManager.generate_citation_objects`. -/
structure Citation where
  id : ℕ
  url : String
  title : String
  snippet : String
  accessed : ℕ
  source_type : String
  authority_score : ℚ
deriving Repr, DecidableEq

/-- `CitationManager._get_authority_score`. -/
def getAuthorityScore (source_type : String) : ℚ :=
  if source_type = "openfoodfacts" then 0.9
  else if source_type = "who" then 0.95
  else if source_type = "fda" then 0.95
  else if source_type = "usda" then 0.95
  else if source_type = "searxng" then 0.7
  else 0.6

/-- `CitationManager.generate_citation_objects`. -/
def CitationManager.generate_citation_objects (cm : CitationManager) : List Citation :=
  cm.sources.map (fun s =>
    ⟨s.id, s.url, s.title, s.snippet, s.accessed, s.source_type,
     getAuthorityScore s.source_type⟩)

/-- `ScoringResult` as constructed by `scoring.py`. -/
structure ScoringResult where
  score : ℚ
  verdict : String
  reasoning : String
  warnings : List String
  highlights : List String
  citations : List Citation
  confidence : ℚ
  data_quality_score : ℚ
  reasoning_steps : List String
  factors_considered : List String
deriving Repr, DecidableEq

/-! ### Nutrition data aggregator (`nutrition_api.py`) -/

/-- One call to an external provider. -/
inductive ProviderCall where
  | barcodeLookup (code : String)
  | textSearch (query : String)
deriving Repr, DecidableEq

/-- `NutritionDataAggregator.get_nutrition_data(barcode, product_name)`.
The two OpenFoodFacts providers (which swallow their own remote errors and
return `None` on failure) are parameters; the second component records the
provider calls made, in order. -/
def getNutritionData (byBarcode byText : String → Option NutritionData)
    (barcode product_name : Option String) :
    Option NutritionData × List ProviderCall :=
  let tryBarcode : Option NutritionData × List ProviderCall :=
    match barcode with
    | some code =>
        if code.isEmpty then (none, [])
        else (byBarcode code, [ProviderCall.barcodeLookup code])
    | none => (none, [])
  match tryBarcode with
  | (some d, log) => (some d, log)
  | (none, log1) =>
      let tryText : Option NutritionData × List ProviderCall :=
        match product_name with
        | some query =>
            if query.isEmpty then (none, [])
            else (byText query, [ProviderCall.textSearch query])
        | none => (none, [])
      (tryText.1, log1 ++ tryText.2)

/-! ### Scoring service (`scoring.py`, NutritionScoringService) -/

/-- One iteration of the `for allergen in user_profile.allergies` loop of
`_check_allergens`: check the allergen tags, then the ingredients text. -/
def checkAllergenStep (nd : NutritionData) (ws : List String)
    (allergen : String) : List String :=
  let allergen_lower := lowerStr allergen
  let ws1 :=
    if nd.allergens.any (fun a => strContains allergen_lower (lowerStr a)) then
      ws ++ ["Contains " ++ allergen]
    else ws
  let ingredients_text := lowerStr (String.intercalate " " nd.ingredients)
  if strContains allergen_lower ingredients_text then
    ws1 ++ ["May contain " ++ allergen ++ " in ingredients"]
  else ws1

/-- `NutritionScoringService._check_allergens`. -/
def checkAllergens (nd : NutritionData) (up : UserProfile) : List String :=
  up.allergies.foldl (checkAllergenStep nd) []

/-- `NutritionScoringService._create_allergen_fail_result`. -/
def createAllergenFailResult (_nd : NutritionData) (warnings : List String)
    (citation_mgr : CitationManager) : ScoringResult :=
  { score := 0
    verdict := "avoid"
    reasoning := "This product contains allergens that you\x27re allergic to. " ++
      String.intercalate ", " warnings
    warnings := warnings
    highlights := []
    citations := citation_mgr.generate_citation_objects
    confidence := 1
    data_quality_score := 1
    reasoning_steps := ["Allergen check failed"]
    factors_considered := ["Allergen safety"] }

/-- The fiber bonus condition of `_fallback_scoring`
(`nutrition_data.fiber_g and nutrition_data.fiber_g > 5.0`: Python
truthiness of the optional float, then the comparison). -/
def fiberHigh (nd : NutritionData) : Bool :=
  match nd.fiber_g with
  | some f => decide (f ≠ 0 ∧ 5 < f)
  | none => false

/-- `NutritionScoringService._fallback_scoring`. -/
def fallbackScoring (nd : NutritionData) (up : UserProfile)
    (data_quality_score : ℚ) (citation_mgr : CitationManager) : ScoringResult :=
  let targets := up.daily_targets
  let s0 : ℚ := 5
  let w0 : List String := []
  let h0 : List String := []
  let (s1, w1, h1) :=
    if targets.sugar_g * 0.5 < nd.sugar_g then (s0 - 2, w0 ++ ["High sugar content"], h0)
    else (s0, w0, h0 ++ ["Low sugar"])
  let (s2, w2, h2) :=
    if targets.sodium_mg * 0.3 < nd.sodium_mg then (s1 - 2, w1 ++ ["High sodium"], h1)
    else (s1, w1, h1 ++ ["Low sodium"])
  let (s3, h3) :=
    if 10 < nd.protein_g then (s2 + 1, h2 ++ ["Good protein source"]) else (s2, h2)
  let (s4, h4) :=
    if fiberHigh nd then (s3 + 1, h3 ++ ["High fiber"]) else (s3, h3)
  let score := max 0 (min 10 s4)
  let verdict := if 7 ≤ score then "good" else if 4 ≤ score then "moderate" else "avoid"
  { score := score
    verdict := verdict
    reasoning := "Rule-based analysis: " ++ String.intercalate ", " (h4 ++ w2)
    warnings := w2
    highlights := h4
    citations := citation_mgr.generate_citation_objects
    confidence := 0.6
    data_quality_score := data_quality_score
    reasoning_steps := ["Rule-based fallback scoring"]
    factors_considered := ["Sugar", "Sodium", "Protein", "Fiber"] }

/-- `NutritionScoringService._parse_score` (float-parse abstracted by
`PyVal.coerceFloat`). -/
def parseScore (v : PyVal) : ℚ :=
  match v.coerceFloat with
  | some q => max 0 (min 10 q)
  | none => 5

/-- `NutritionScoringService._parse_verdict`. -/
def parseVerdict (verdict_str : String) : String :=
  let verdict_lower := lowerStr verdict_str
  if strContains "good" verdict_lower then "good"
  else if strContains "avoid" verdict_lower then "avoid"
  else "moderate"

/-- `NutritionScoringService._parse_confidence`. -/
def parseConfidence (v : PyVal) : ℚ :=
  match v.coerceFloat with
  | some c => max 0 (min 1 c)
  | none => 0.7

/-- `NutritionData.model_dump()` restricted to the keys the cleaner reads.
`product_name` is a string and never numerically coerced, so its
float-coercibility is modelled as `none`; `fiber_g = None` dumps to
Python `None`. -/
def NutritionData.toDict (nd : NutritionData) : PyDict :=
  [("product_name", .pystr none nd.product_name.isEmpty),
   ("calories", .num nd.calories),
   ("protein_g", .num nd.protein_g),
   ("carbs_g", .num nd.carbs_g),
   ("fat_g", .num nd.fat_g),
   ("saturated_fat_g", .num nd.saturated_fat_g),
   ("sugar_g", .num nd.sugar_g),
   ("sodium_mg", .num nd.sodium_mg),
   ("fiber_g", match nd.fiber_g with | some f => .num f | none => .noneVal),
   ("confidence", .num nd.confidence)]

/-- Outcome of `self.agent.forward(...)` (the DSPy ReAct reasoning agent,
an external collaborator): it either raises, or returns the raw fields the
scoring service then parses.  The JSON-list parsing of `warnings` and
`highlights` is abstracted to already-parsed lists. -/
inductive AgentOutcome where
  | raises
  | returns (score : PyVal) (verdict : String) (reasoning : String)
      (warnings highlights : List String) (confidence : PyVal)
deriving Repr, DecidableEq

/-- `NutritionScoringService.score(nutrition_data, user_profile)`.
The agent outcome and the wall clock are explicit parameters. -/
def NutritionScoringService.score (agent : AgentOutcome)
    (nutrition_data : NutritionData) (user_profile : UserProfile)
    (now : ℕ) : ScoringResult :=
  let citation_mgr := CitationManager.init
  let allergen_warnings := checkAllergens nutrition_data user_profile
  if allergen_warnings ≠ [] then
    createAllergenFailResult nutrition_data allergen_warnings citation_mgr
  else
    let cleanedAndScore := DataCleanerAgent.clean nutrition_data.toDict
    let data_quality_score := cleanedAndScore.2
    let citation_mgr1 :=
      if nutrition_data.data_source = "openfoodfacts" ∧
          strTruthy nutrition_data.barcode = true then
        (citation_mgr.add_source
          ("https://world.openfoodfacts.org/product/" ++
            (nutrition_data.barcode.getD ""))
          (nutrition_data.product_name ++ " - OpenFoodFacts")
          ("Nutrition data for " ++ nutrition_data.product_name)
          "openfoodfacts" now).1
      else citation_mgr
    match agent with
    | .raises =>
        fallbackScoring nutrition_data user_profile data_quality_score citation_mgr1
    | .returns s v r w h c =>
        { score := parseScore s
          verdict := parseVerdict v
          reasoning := r
          warnings := w
          highlights := h
          citations := citation_mgr1.generate_citation_objects
          confidence := parseConfidence c
          data_quality_score := data_quality_score
          reasoning_steps :=
            ["Analyzed nutritional content", "Compared against user goals",
             "Researched health guidelines", "Generated personalized verdict"]
          factors_considered :=
            ["Goal alignment", "Nutritional density", "Processing level",
             "Portion appropriateness", "Data quality"] }

/-! ### Profile store keying (`profile_store.py`) -/

/-- The sanitisation inside `ProfileStore._get_profile_path`:
keep alphanumerics, "-" and "_", then lowercase.  `Char.isAlphanum` and
`Char.toLower` agree with Python `str.isalnum()` / `str.lower()` exactly
on ASCII characters (Python is additionally Unicode-aware), so theorems
about this definition restrict the names to ASCII. -/
def sanitizeName (name : String) : String :=
  lowerStr (String.mk (name.toList.filter
    (fun c => c.isAlphanum || c == Char.ofNat 45 || c == Char.ofNat 95)))

/-- Is every character of the string ASCII (the fragment on which
`sanitizeName` coincides with the Python sanitisation)? -/
def isAsciiStr (s : String) : Bool :=
  s.toList.all (fun c => c.toNat < 128)

/-- The file name `f"\x7bsafe_name\x7d.json"` under `profiles_dir`. -/
def profileFileName (name : String) : String := sanitizeName name ++ ".json"

/-- `ProfileStore.exists(name)`: the file system is an association list
from file name to stored profile content. -/
def storeExists (fs : List (String × α)) (name : String) : Bool :=
  (fs.find? (fun p => p.1 == profileFileName name)).isSome

/-- `ProfileStore.load(name)` (JSON parsing of a stored profile abstracted
to returning the stored content). -/
def storeLoad (fs : List (String × α)) (name : String) : Option α :=
  (fs.find? (fun p => p.1 == profileFileName name)).map (fun p => p.2)

/-- `ProfileStore.save(profile)`: (over)write the file keyed by the
profile name (replace the entry at the path if present, else create it). -/
def storeSave : List (String × α) → String → α → List (String × α)
  | [], name, p => [(profileFileName name, p)]
  | (k, v) :: rest, name, p =>
      if k == profileFileName name then (k, p) :: rest
      else (k, v) :: storeSave rest name p

/-- `ProfileStore.create(onboarding_data)`: fails when the profile path
already exists, else saves the profile built from the onboarding data
(whose `name` equals the request name). -/
def storeCreate (fs : List (String × α)) (name : String) (p : α) :
    Except String (List (String × α)) :=
  if storeExists fs name then
    Except.error ("Profile " ++ name ++ " already exists")
  else Except.ok (storeSave fs name p)

/-- `ProfileStore.update(name, updates)`: load the profile stored under
`name` (raising not-found when absent), apply the partial field updates
and the conditional daily-target recomputation — abstracted as the
`applyUpdates` function — then save under the name carried by the updated
profile (`self.save(profile)` keys by `profile.name`, read here through
`getName`).  Returns the new file system and the updated profile. -/
def storeUpdate (getName : α → String) (fs : List (String × α))
    (name : String) (applyUpdates : α → α) :
    Except String (List (String × α) × α) :=
  match storeLoad fs name with
  | none => Except.error ("Profile " ++ name ++ " not found")
  | some profile =>
      let profile2 := applyUpdates profile
      Except.ok (storeSave fs (getName profile2) profile2, profile2)

/-! ### Scan orchestration (`scan.py`, `start_scan` / `_emit_error`) -/

/-- An event emitted over the socket by `start_scan`: the three event
channels `scan_progress`, `scan_error`, `scan_complete` with the payload
fields `start_scan` passes.  The `ScanResult` payload of the completion
event does not influence the event sequence and is not carried here. -/
inductive ScanEvent where
  | scan_progress (stage : String) (progressValue : ℚ) (message : String)
  | scan_error (stage : String) (error : String) (error_code : String)
      (retry_suggestion : Option String)
  | scan_complete
deriving Repr, DecidableEq

/-- The event `_emit_error(sid, "unknown", "An unexpected error occurred",
"INTERNAL_ERROR", "Please try again")` of the catch-all handler. -/
def internalErrorEvent : ScanEvent :=
  .scan_error "unknown" "An unexpected error occurred" "INTERNAL_ERROR"
    (some "Please try again")

/-- Outcomes of the external calls awaited by one `start_scan` invocation:
request parsing, base64 decoding, the barcode/OCR output of the image analyzer,
the result of the nutrition aggregator, the result of the profile store, and whether
an uncaught exception occurs in the scoring or UI-generation stage (routed
to the catch-all handler). -/
structure ScanEnv where
  parse_ok : Bool
  decode_ok : Bool
  barcode : Option String
  ocr_text : Option String
  nutrition : Option NutritionData
  profile : Option UserProfile
  scoring_raises : Bool
  ui_raises : Bool
deriving Repr, DecidableEq

/-- `start_scan(sid, data)`: the sequence of events emitted to the client,
in emission order. -/
def startScan (env : ScanEnv) : List ScanEvent :=
  if !env.parse_ok then [internalErrorEvent]
  else
    ScanEvent.scan_progress "detecting_barcode" 10 "Analyzing image..." ::
    (if !env.decode_ok then
      [.scan_error "detecting_barcode" "Invalid image data" "IMAGE_DECODE_ERROR" none]
    else if !strTruthy env.barcode && !strTruthy env.ocr_text then
      [.scan_error "detecting_barcode" "Could not detect barcode or extract text"
        "IMAGE_PROCESSING_FAILED" (some "Try better lighting or a clearer image")]
    else
      ScanEvent.scan_progress "fetching_nutrition" 30 "Looking up nutrition data..." ::
      (match env.nutrition with
       | none =>
          [.scan_error "fetching_nutrition" "Product not found in database"
            "PRODUCT_NOT_FOUND" (some "Try scanning the barcode again or manual entry")]
       | some _ =>
          ScanEvent.scan_progress "loading_profile" 50 "Loading your profile..." ::
          (match env.profile with
           | none =>
              [.scan_error "loading_profile" "User profile not found"
                "PROFILE_NOT_FOUND" (some "Please complete onboarding first")]
           | some _ =>
              ScanEvent.scan_progress "analyzing" 60
                  "Analyzing nutrition against your goals..." ::
              (if env.scoring_raises then [internalErrorEvent]
               else
                ScanEvent.scan_progress "generating_ui" 85
                    "Preparing your personalized verdict..." ::
                (if env.ui_raises then [internalErrorEvent]
                 else [.scan_complete])))))

/-- Is the event a progress notification? -/
def ScanEvent.isProgress : ScanEvent → Bool
  | .scan_progress _ _ _ => true
  | _ => false

/-- Is the event terminal (an error or a completion)? -/
def ScanEvent.isTerminal : ScanEvent → Bool
  | .scan_progress _ _ _ => false
  | _ => true

/-- Is the event a completion? -/
def ScanEvent.isComplete : ScanEvent → Bool
  | .scan_complete => true
  | _ => false

/-- Is the event an error? -/
def ScanEvent.isError : ScanEvent → Bool
  | .scan_error _ _ _ _ => true
  | _ => false

/-- The progress values of the progress notifications, in order. -/
def progressValues (l : List ScanEvent) : List ℚ :=
  l.filterMap (fun e => match e with
    | .scan_progress _ p _ => some p
    | _ => none)

/-- The stages of the progress notifications, in order. -/
def progressStages (l : List ScanEvent) : List String :=
  l.filterMap (fun e => match e with
    | .scan_progress s _ _ => some s
    | _ => none)

/-- The error notifications, in order. -/
def errorEvents (l : List ScanEvent) : List ScanEvent :=
  l.filter ScanEvent.isError

/-- "Zero-or-more progress notifications followed by exactly one terminal
notification": all but the last event are progress events and the last is
terminal. -/
def eventsWellFormed (l : List ScanEvent) : Bool :=
  l.dropLast.all ScanEvent.isProgress &&
    (match l.getLast? with
     | some t => t.isTerminal
     | none => false)

/-- Strict monotonicity of a list of rationals. -/
def strictlyIncreasing : List ℚ → Bool
  | [] => true
  | [_] => true
  | a :: b :: t => (a < b) && strictlyIncreasing (b :: t)

/-- The stage order of the pipeline, as emitted by `start_scan`. -/
def stageOrder : List String :=
  ["detecting_barcode", "fetching_nutrition", "loading_profile",
   "analyzing", "generating_ui"]

/-- The progress content of one run is monotone, bounded by the percent
scale, and stage-ordered: values strictly increase, lie in `[0, 100]`, and
the stage sequence is an initial segment of the stage order of the pipeline. -/
def progressReportOk (l : List ScanEvent) : Bool :=
  strictlyIncreasing (progressValues l) &&
  (progressValues l).all (fun p => 0 ≤ p && p ≤ 100) &&
  progressStages l == stageOrder.take (progressStages l).length

/-! ### Shared concrete inputs for witnesses and counterexamples -/

/-- A concrete daily-targets record (30 g sugar target, 2000 mg sodium). -/
def dtW : DailyTargets :=
  { calories := 2000, protein_g := 100, carbs_g := 250, fat_g := 55,
    fiber_g := 30, sugar_g := 30, sodium_mg := 2000 }

/-- A concrete nutrition record carrying the allergen tag "Peanut". -/
def ndPeanut : NutritionData :=
  { product_name := "Choco Bar", calories := 250, protein_g := 3, carbs_g := 30,
    fat_g := 12, saturated_fat_g := 5, sugar_g := 20, sodium_mg := 50,
    fiber_g := none, ingredients := ["sugar", "cocoa"], allergens := ["Peanut"],
    data_source := "openfoodfacts", barcode := some "123", confidence := 1 }

/-- A concrete allergen-free, high-sugar nutrition record
(sugar 40 g, low sodium, low protein, no fiber). -/
def ndSugar : NutritionData :=
  { product_name := "Candy", calories := 200, protein_g := 3, carbs_g := 30,
    fat_g := 5, saturated_fat_g := 2, sugar_g := 40, sodium_mg := 100,
    fiber_g := none, ingredients := [], allergens := [],
    data_source := "ocr", barcode := none, confidence := 1 }

/-- A profile allergic to "peanut". -/
def upPeanut : UserProfile :=
  { name := "alice", allergies := ["peanut"], daily_targets := dtW }

/-- An allergy-free profile. -/
def upPlain : UserProfile :=
  { name := "bob", allergies := [], daily_targets := dtW }

/-- A scan environment in which every stage succeeds. -/
def envHappy : ScanEnv :=
  { parse_ok := true, decode_ok := true, barcode := some "123",
    ocr_text := none, nutrition := some ndSugar, profile := some upPlain,
    scoring_raises := false, ui_raises := false }

/-- A scan environment in which nutrition retrieval yields no record. -/
def envNoNutrition : ScanEnv :=
  { parse_ok := true, decode_ok := true, barcode := some "123",
    ocr_text := none, nutrition := none, profile := some upPlain,
    scoring_raises := false, ui_raises := false }

/-! ### C6 — BMR formula and the concrete example of the spec -/

/-- C6: the claimed concrete value is wrong: for age 30, male, 180 cm,
80 kg the Mifflin-St Jeor computation of the source returns 1780.0, not
1742.5 (10·80 + 6.25·180 − 5·30 + 5 = 1780). -/
theorem bmr_spec_example_refuted :
    calculateBmrMifflin 80 180 30 "male" = 1780 ∧
    calculateBmrMifflin 80 180 30 "male" ≠ 1742.5 := by
  constructor <;> norm_num [calculateBmrMifflin]

/-- C6 (amended): the BMR computation follows Mifflin-St Jeor —
10·weight + 6.25·height − 5·age, plus 5 for male, minus 161 for female,
minus 78 otherwise — and at age 30, male, 180 cm, 80 kg it returns
1780.0. -/
theorem bmr_mifflin_formula :
    (∀ w h a, calculateBmrMifflin w h a "male" = 10 * w + 6.25 * h - 5 * a + 5) ∧
    (∀ w h a, calculateBmrMifflin w h a "female" = 10 * w + 6.25 * h - 5 * a - 161) ∧
    (∀ w h a g, g ≠ "male" → g ≠ "female" →
      calculateBmrMifflin w h a g = 10 * w + 6.25 * h - 5 * a - 78) ∧
    calculateBmrMifflin 80 180 30 "male" = 1780 := by
  refine ⟨?_, ?_, ?_, ?_⟩
  · intro w h a; simp [calculateBmrMifflin]
  · intro w h a; simp [calculateBmrMifflin]
  · intro w h a g hm hf; simp [calculateBmrMifflin, hm, hf]
  · norm_num [calculateBmrMifflin]

/-- Witness for the hypotheses of `bmr_mifflin_formula`: the
"other"-gender branch at a concrete input. -/
theorem bmr_mifflin_formula_witness :
    calculateBmrMifflin 80 180 30 "other" = 10 * 80 + 6.25 * 180 - 5 * 30 - 78 :=
  bmr_mifflin_formula.2.2.1 80 180 30 "other" (by decide) (by decide)

/-! ### C7 — aggregator with both inputs absent -/

/-- C7: with both the barcode and the product name absent (`None` or
empty), `get_nutrition_data` returns the not-found signal and performs no
provider call at all, whatever the providers would answer. -/
theorem aggregator_absent_inputs_no_provider_calls :
    ∀ (byBarcode byText : String → Option NutritionData)
      (barcode product_name : Option String),
      (barcode = none ∨ barcode = some "") →
      (product_name = none ∨ product_name = some "") →
      getNutritionData byBarcode byText barcode product_name = (none, []) := by
  rintro bb bt b p (rfl | rfl) (rfl | rfl) <;> rfl

/-- Witness for `aggregator_absent_inputs_no_provider_calls` at
concrete absent inputs. -/
theorem aggregator_absent_inputs_witness :
    getNutritionData (fun _ => none) (fun _ => none) none (some "") = (none, []) :=
  aggregator_absent_inputs_no_provider_calls _ _ none (some "")
    (Or.inl rfl) (Or.inr rfl)

/-! ### C4 — citation ledger: idempotence and sequential ids -/

/-- A url is absent from the citation map iff `mapLookup` misses. -/
theorem mapLookup_eq_none_iff (m : List (String × ℕ)) (u : String) :
    mapLookup m u = none ↔ u ∉ m.map Prod.fst := by
  induction m with
  | nil => simp [mapLookup]
  | cons hd tl ih =>
      unfold mapLookup at ih ⊢
      by_cases hhd : hd.1 = u
      · rw [List.find?_cons_of_pos _ (by simp [hhd])]
        simp [hhd]
      · rw [List.find?_cons_of_neg _ (by simp [hhd])]
        simp only [List.map_cons, List.mem_cons, not_or, ih]
        have : ¬u = hd.1 := fun hc => hhd hc.symm
        simp [this]

/-- After a miss, the freshly appended url is found with its new id. -/
theorem mapLookup_append_of_none (m : List (String × ℕ)) (u : String) (i : ℕ)
    (h : mapLookup m u = none) : mapLookup (m ++ [(u, i)]) u = some i := by
  induction m with
  | nil => simp [mapLookup, List.find?]
  | cons hd tl ih =>
      unfold mapLookup at h ih ⊢
      by_cases hhd : hd.1 = u
      · rw [List.find?_cons_of_pos _ (by simp [hhd])] at h
        simp at h
      · rw [List.find?_cons_of_neg _ (by simp [hhd])] at h
        rw [List.cons_append, List.find?_cons_of_neg _ (by simp [hhd])]
        exact ih h

/-- Internal consistency of a ledger state: ids are `1, 2, …, n` in source
order, the citation map keys are exactly the source urls, and the counter
is one past the number of sources. -/
def ledgerInv (cm : CitationManager) : Prop :=
  cm.sources.map SourceRec.id = List.range' 1 cm.sources.length ∧
  cm.citation_map.map Prod.fst = cm.sources.map SourceRec.url ∧
  cm.next_id = cm.sources.length + 1

/-- The fresh ledger satisfies the invariant. -/
theorem ledgerInv_init : ledgerInv CitationManager.init := ⟨rfl, rfl, rfl⟩

/-- `add_source` preserves the ledger invariant. -/
theorem add_source_inv (cm : CitationManager) (u t s ty : String) (n : ℕ)
    (h : ledgerInv cm) : ledgerInv (cm.add_source u t s ty n).1 := by
  obtain ⟨hid, hkey, hnext⟩ := h
  unfold CitationManager.add_source
  cases hl : mapLookup cm.citation_map u with
  | some cid => exact ⟨hid, hkey, hnext⟩
  | none =>
      refine ⟨?_, ?_, ?_⟩
      · simp only [List.map_append, hid, hnext, List.length_append]
        simp [List.range'_concat, Nat.add_comm]
      · simp [List.map_append, hkey]
      · simp [hnext]

/-- `firstSeenAux` only depends on the membership content of `seen`. -/
theorem firstSeenAux_congr :
    ∀ (l s1 s2 : List String), (∀ x, x ∈ s1 ↔ x ∈ s2) →
      firstSeenAux s1 l = firstSeenAux s2 l := by
  intro l
  induction l with
  | nil => intro s1 s2 _; rfl
  | cons u rest ih =>
      intro s1 s2 h
      simp only [firstSeenAux]
      by_cases hu : u ∈ s1
      · rw [if_pos hu, if_pos ((h u).mp hu), ih s1 s2 h]
      · rw [if_neg hu, if_neg (fun hc => hu ((h u).mpr hc)),
          ih (u :: s1) (u :: s2) (by intro x; simp [h x])]

/-- Running a call sequence preserves the invariant and appends exactly
the urls not seen before, in first-seen order. -/
theorem runCitationCalls_spec :
    ∀ (calls : List CitationCall) (cm : CitationManager), ledgerInv cm →
      ledgerInv (runCitationCalls cm calls) ∧
      (runCitationCalls cm calls).sources.map SourceRec.url
        = cm.sources.map SourceRec.url ++
            firstSeenAux (cm.sources.map SourceRec.url) (calls.map CitationCall.url) := by
  intro calls
  induction calls with
  | nil => intro cm h; exact ⟨h, by simp [runCitationCalls, firstSeenAux]⟩
  | cons c cs ih =>
      intro cm h
      obtain ⟨hid, hkey, hnext⟩ := h
      rw [runCitationCalls]
      cases hl : mapLookup cm.citation_map c.url with
      | some cid =>
          have hstate : (cm.add_source c.url c.title c.snippet c.source_type c.now).1 = cm := by
            unfold CitationManager.add_source; rw [hl]
          have hmem : c.url ∈ cm.sources.map SourceRec.url := by
            rw [← hkey]
            by_contra hc
            rw [← mapLookup_eq_none_iff] at hc
            rw [hl] at hc
            cases hc
          rw [hstate]
          obtain ⟨h1, h2⟩ := ih cm ⟨hid, hkey, hnext⟩
          refine ⟨h1, ?_⟩
          rw [h2]
          simp [firstSeenAux, hmem]
      | none =>
          have hinv' : ledgerInv (cm.add_source c.url c.title c.snippet c.source_type c.now).1 :=
            add_source_inv cm _ _ _ _ _ ⟨hid, hkey, hnext⟩
          have hurls : (cm.add_source c.url c.title c.snippet c.source_type c.now).1.sources.map SourceRec.url
              = cm.sources.map SourceRec.url ++ [c.url] := by
            unfold CitationManager.add_source
            rw [hl]
            simp
          have hnotmem : c.url ∉ cm.sources.map SourceRec.url := by
            rw [← hkey, ← mapLookup_eq_none_iff]
            exact hl
          obtain ⟨h1, h2⟩ := ih _ hinv'
          refine ⟨h1, ?_⟩
          rw [h2, hurls]
          simp only [List.map_cons, firstSeenAux]
          rw [if_neg hnotmem, List.append_assoc]
          congr 1
          simp only [List.singleton_append, List.cons.injEq, true_and]
          exact firstSeenAux_congr _ _ _ (by intro x; simp [or_comm])

/-- C4: `add_source` is idempotent on the url — a repeated url returns
the identical (state, id) pair, so the sources list does not grow — and a
run of calls from a fresh ledger stores each distinct url once, in
first-seen call order, with ids exactly `1, 2, …, n`. -/
theorem add_source_idempotent_and_sequential :
    (∀ (cm : CitationManager) (url t1 s1 ty1 : String) (n1 : ℕ)
       (t2 s2 ty2 : String) (n2 : ℕ),
       (cm.add_source url t1 s1 ty1 n1).1.add_source url t2 s2 ty2 n2
         = cm.add_source url t1 s1 ty1 n1) ∧
    (∀ calls : List CitationCall,
       (runCitationCalls CitationManager.init calls).sources.map SourceRec.url
         = firstSeen (calls.map CitationCall.url) ∧
       (runCitationCalls CitationManager.init calls).sources.map SourceRec.id
         = List.range' 1 (runCitationCalls CitationManager.init calls).sources.length) := by
  constructor
  · intro cm url t1 s1 ty1 n1 t2 s2 ty2 n2
    unfold CitationManager.add_source
    cases hl : mapLookup cm.citation_map url with
    | some cid => simp [hl]
    | none =>
        have h2 := mapLookup_append_of_none cm.citation_map url cm.next_id hl
        simp [h2]
  · intro calls
    obtain ⟨hinv, hurls⟩ := runCitationCalls_spec calls CitationManager.init ledgerInv_init
    exact ⟨by simpa [CitationManager.init, firstSeen] using hurls, hinv.1⟩

/-! ### C2 — the allergen gate -/

/-- The needle matches at the head of itself. -/
theorem subAt_refl : ∀ l : List Char, subAt l l = true := by
  intro l
  induction l with
  | nil => rfl
  | cons c cs ih => simp [subAt, ih]

/-- Every string contains itself (Python `s in s`). -/
theorem strContains_self (s : String) : strContains s s = true := by
  unfold strContains
  cases h : s.toList with
  | nil => rfl
  | cons c cs => simp [hasSub, subAt_refl]

/-- Does the allergen hit the allergen tags of the record
(case-insensitive substring check, as in the source)? -/
def allergenTagHit (nd : NutritionData) (allergen : String) : Bool :=
  nd.allergens.any (fun a => strContains (lowerStr allergen) (lowerStr a))

/-- Does the allergen hit the ingredients text? -/
def allergenIngredientHit (nd : NutritionData) (allergen : String) : Bool :=
  strContains (lowerStr allergen) (lowerStr (String.intercalate " " nd.ingredients))

/-- Number of allergen-check hits contributed by one user allergen. -/
def allergenHits (nd : NutritionData) (allergen : String) : ℕ :=
  (if allergenTagHit nd allergen then 1 else 0) +
  (if allergenIngredientHit nd allergen then 1 else 0)

/-- One loop iteration appends exactly one warning per hit. -/
theorem checkAllergenStep_length (nd : NutritionData) (ws : List String)
    (allergen : String) :
    (checkAllergenStep nd ws allergen).length = ws.length + allergenHits nd allergen := by
  unfold checkAllergenStep allergenHits allergenTagHit allergenIngredientHit
  by_cases h1 : nd.allergens.any (fun a => strContains (lowerStr allergen) (lowerStr a)) = true <;>
    by_cases h2 : strContains (lowerStr allergen)
        (lowerStr (String.intercalate " " nd.ingredients)) = true <;>
    simp only [h1, h2, if_true, if_false, Bool.not_eq_true] at * <;>
    simp [h1, h2]

/-- The allergen check produces exactly one warning per hit. -/
theorem checkAllergens_length (nd : NutritionData) (up : UserProfile) :
    (checkAllergens nd up).length = (up.allergies.map (allergenHits nd)).sum := by
  unfold checkAllergens
  have haux : ∀ (l : List String) (acc : List String),
      (l.foldl (checkAllergenStep nd) acc).length
        = acc.length + (l.map (allergenHits nd)).sum := by
    intro l
    induction l with
    | nil => intro acc; simp
    | cons a rest ih =>
        intro acc
        simp only [List.foldl_cons, List.map_cons, List.sum_cons]
        rw [ih, checkAllergenStep_length]
        omega
  simpa using haux up.allergies []

/-- The hit count as the claim words it: one per case-insensitive exact
membership of the user allergen among the record allergen tags, one per
case-insensitive substring occurrence in the ingredients text.  Spec-side
notion, to be compared with the code-side `allergenHits` (whose tag check
is substring containment, `allergen_lower in a.lower()`). -/
def allergenClaimHits (nd : NutritionData) (allergen : String) : ℕ :=
  (if nd.allergens.any (fun t => lowerStr allergen == lowerStr t) then 1 else 0) +
  (if allergenIngredientHit nd allergen then 1 else 0)

/-- A profile allergic to "peanut" and to "nut". -/
def upNutty : UserProfile :=
  { name := "carol", allergies := ["peanut", "nut"], daily_targets := dtW }

/-- C2: the "one warning per hit" part of the claim is false when a hit is
read as the claim words it (membership among the tags).  For allergies
["peanut", "nut"] against the single tag "Peanut" with no ingredient
occurrence — an input inside the antecedent of the claim, since "peanut"
matches the member "Peanut" case-insensitively — the claim counts one hit,
but the code checks substring containment against each tag, so "nut" also
hits "Peanut" and `score` emits two warnings. -/
theorem score_allergen_warning_count_refuted :
    ("peanut" ∈ upNutty.allergies ∧ "Peanut" ∈ ndPeanut.allergens ∧
      lowerStr "peanut" = lowerStr "Peanut") ∧
    (NutritionScoringService.score AgentOutcome.raises ndPeanut upNutty 0).warnings
      = ["Contains peanut", "Contains nut"] ∧
    (upNutty.allergies.map (allergenClaimHits ndPeanut)).sum = 1 ∧
    (NutritionScoringService.score AgentOutcome.raises ndPeanut upNutty 0).warnings.length
      ≠ (upNutty.allergies.map (allergenClaimHits ndPeanut)).sum := by
  decide

/-- C2 (amended): any case-insensitive substring occurrence of a user
allergen in a record allergen tag (which an exact case-insensitive match
implies) or in the ingredients text makes `score` return the terminal
allergen-fail result — score 0, verdict "avoid", confidence 1.0,
data-quality 1.0, one warning per such substring hit — for every
reasoning-agent outcome (the agent is never consulted). -/
theorem score_allergen_gate :
    ∀ (agent : AgentOutcome) (nd : NutritionData) (up : UserProfile) (now : ℕ),
      (∃ a ∈ up.allergies,
        allergenTagHit nd a = true ∨ allergenIngredientHit nd a = true) →
      NutritionScoringService.score agent nd up now
          = createAllergenFailResult nd (checkAllergens nd up) CitationManager.init ∧
      (NutritionScoringService.score agent nd up now).score = 0 ∧
      (NutritionScoringService.score agent nd up now).verdict = "avoid" ∧
      (NutritionScoringService.score agent nd up now).confidence = 1 ∧
      (NutritionScoringService.score agent nd up now).data_quality_score = 1 ∧
      (NutritionScoringService.score agent nd up now).warnings.length
          = (up.allergies.map (allergenHits nd)).sum := by
  intro agent nd up now hhit
  have hone : ∃ a ∈ up.allergies, 1 ≤ allergenHits nd a := by
    obtain ⟨a, ha, hcase⟩ := hhit
    refine ⟨a, ha, ?_⟩
    unfold allergenHits
    rcases hcase with htag | hing
    · simp [htag]
    · simp [hing]
  have hsum : 1 ≤ (up.allergies.map (allergenHits nd)).sum := by
    obtain ⟨a, ha, hone'⟩ := hone
    calc 1 ≤ allergenHits nd a := hone'
      _ ≤ (up.allergies.map (allergenHits nd)).sum :=
          List.single_le_sum (by intro x _; exact Nat.zero_le x) _
            (List.mem_map.mpr ⟨a, ha, rfl⟩)
  have hne : checkAllergens nd up ≠ [] := by
    intro hc
    have := checkAllergens_length nd up
    rw [hc] at this
    simp at this
    omega
  have hmain : NutritionScoringService.score agent nd up now
      = createAllergenFailResult nd (checkAllergens nd up) CitationManager.init := by
    unfold NutritionScoringService.score
    rw [if_pos hne]
  refine ⟨hmain, ?_, ?_, ?_, ?_, ?_⟩ <;> rw [hmain] <;>
    simp [createAllergenFailResult, checkAllergens_length]

/-- Witness for `score_allergen_gate`: profile allergen "peanut" against
record allergen tag "Peanut", with the agent unavailable. -/
theorem score_allergen_gate_witness :
    (NutritionScoringService.score AgentOutcome.raises ndPeanut upPeanut 0).score = 0 ∧
    (NutritionScoringService.score AgentOutcome.raises ndPeanut upPeanut 0).verdict = "avoid" := by
  have h := score_allergen_gate AgentOutcome.raises ndPeanut upPeanut 0
    ⟨"peanut", by decide, Or.inl (by decide)⟩
  exact ⟨h.2.1, h.2.2.1⟩

/-! ### C3 — deterministic fallback scoring -/

/-- The closed-form score of the fallback scorer: 5.0 baseline, −2.0 per
exceeded sugar/sodium threshold, +1.0 per protein/fiber bonus, clamped to
[0, 10]. -/
def fallbackScoreFormula (nd : NutritionData) (t : DailyTargets) : ℚ :=
  max 0 (min 10
    (5 - (if t.sugar_g * 0.5 < nd.sugar_g then 2 else 0)
       - (if t.sodium_mg * 0.3 < nd.sodium_mg then 2 else 0)
       + (if 10 < nd.protein_g then 1 else 0)
       + (if fiberHigh nd then 1 else 0)))

/-- The warnings of the fallback scorer, one per exceeded threshold. -/
def fallbackWarningsFormula (nd : NutritionData) (t : DailyTargets) : List String :=
  (if t.sugar_g * 0.5 < nd.sugar_g then ["High sugar content"] else []) ++
  (if t.sodium_mg * 0.3 < nd.sodium_mg then ["High sodium"] else [])

/-- The highlights of the fallback scorer. -/
def fallbackHighlightsFormula (nd : NutritionData) (t : DailyTargets) : List String :=
  (if t.sugar_g * 0.5 < nd.sugar_g then [] else ["Low sugar"]) ++
  (if t.sodium_mg * 0.3 < nd.sodium_mg then [] else ["Low sodium"]) ++
  (if 10 < nd.protein_g then ["Good protein source"] else []) ++
  (if fiberHigh nd then ["High fiber"] else [])

set_option maxHeartbeats 1000000 in
/-- The fallback scorer equals its closed form, field by field. -/
theorem fallbackScoring_eq (nd : NutritionData) (up : UserProfile)
    (dq : ℚ) (cm : CitationManager) :
    fallbackScoring nd up dq cm =
      { score := fallbackScoreFormula nd up.daily_targets
        verdict :=
          if 7 ≤ fallbackScoreFormula nd up.daily_targets then "good"
          else if 4 ≤ fallbackScoreFormula nd up.daily_targets then "moderate"
          else "avoid"
        reasoning := "Rule-based analysis: " ++ String.intercalate ", "
          (fallbackHighlightsFormula nd up.daily_targets ++
            fallbackWarningsFormula nd up.daily_targets)
        warnings := fallbackWarningsFormula nd up.daily_targets
        highlights := fallbackHighlightsFormula nd up.daily_targets
        citations := cm.generate_citation_objects
        confidence := 0.6
        data_quality_score := dq
        reasoning_steps := ["Rule-based fallback scoring"]
        factors_considered := ["Sugar", "Sodium", "Protein", "Fiber"] } := by
  unfold fallbackScoring fallbackScoreFormula fallbackWarningsFormula
    fallbackHighlightsFormula
  by_cases h1 : up.daily_targets.sugar_g * 0.5 < nd.sugar_g <;>
    by_cases h2 : up.daily_targets.sodium_mg * 0.3 < nd.sodium_mg <;>
    by_cases h3 : 10 < nd.protein_g <;>
    by_cases h4 : fiberHigh nd = true <;>
    simp only [h1, h2, h3, h4, if_true, if_false, ite_true, ite_false,
      ScoringResult.mk.injEq] <;>
    norm_num

/-- C3: the fallback scorer starts at 5.0, subtracts 2.0 with a warning
when sugar exceeds 50 % of the sugar target (else highlights low sugar),
likewise for sodium at 30 % of the sodium target, adds 1.0 with a
highlight for protein > 10 g and for fiber > 5 g, clamps to [0, 10],
assigns verdicts by the 7.0/4.0 thresholds, returns fixed confidence 0.6 —
and sugar 40 g against a 30 g daily target with no other adjustment yields
the "High sugar content" warning and a score of exactly 3.0. -/
theorem fallbackScoring_characterization :
    ∀ (nd : NutritionData) (up : UserProfile) (dq : ℚ) (cm : CitationManager),
      (fallbackScoring nd up dq cm).score = fallbackScoreFormula nd up.daily_targets ∧
      (fallbackScoring nd up dq cm).warnings = fallbackWarningsFormula nd up.daily_targets ∧
      (fallbackScoring nd up dq cm).highlights = fallbackHighlightsFormula nd up.daily_targets ∧
      (fallbackScoring nd up dq cm).verdict =
        (if 7 ≤ (fallbackScoring nd up dq cm).score then "good"
         else if 4 ≤ (fallbackScoring nd up dq cm).score then "moderate" else "avoid") ∧
      (fallbackScoring nd up dq cm).confidence = 0.6 ∧
      (fallbackScoring nd up dq cm).data_quality_score = dq ∧
      (nd.sugar_g = 40 → up.daily_targets.sugar_g = 30 →
        ¬(up.daily_targets.sodium_mg * 0.3 < nd.sodium_mg) →
        ¬(10 < nd.protein_g) → fiberHigh nd = false →
        (fallbackScoring nd up dq cm).score = 3 ∧
        "High sugar content" ∈ (fallbackScoring nd up dq cm).warnings) := by
  intro nd up dq cm
  rw [fallbackScoring_eq]
  refine ⟨rfl, rfl, rfl, rfl, rfl, rfl, ?_⟩
  intro hs ht hso hp hfib
  have hfibn : ¬(fiberHigh nd = true) := by simp [hfib]
  have hsug : up.daily_targets.sugar_g * 0.5 < nd.sugar_g := by
    rw [hs, ht]; norm_num
  constructor
  · show fallbackScoreFormula nd up.daily_targets = 3
    unfold fallbackScoreFormula
    rw [if_pos hsug, if_neg hso, if_neg hp, if_neg hfibn]
    norm_num
  · show "High sugar content" ∈ fallbackWarningsFormula nd up.daily_targets
    unfold fallbackWarningsFormula
    rw [if_pos hsug]
    simp

/-- Witness for `fallbackScoring_characterization`: sugar 40 g against a
30 g daily target, low sodium, low protein, no fiber — score exactly 3.0
with the high-sugar warning. -/
theorem fallbackScoring_characterization_witness :
    (fallbackScoring ndSugar upPlain 1 CitationManager.init).score = 3 ∧
    "High sugar content" ∈ (fallbackScoring ndSugar upPlain 1 CitationManager.init).warnings :=
  (fallbackScoring_characterization ndSugar upPlain 1 CitationManager.init).2.2.2.2.2.2
    rfl rfl (by norm_num [upPlain, dtW, ndSugar]) (by norm_num [ndSugar]) rfl

/-! ### C8 — data-cleaner quality score -/

/-- Is the field present, non-`None` and not coercible to a number
(the −0.05 case of the numeric-coercion loop)? -/
def fieldNonCoercible (d : PyDict) (f : String) : Bool :=
  match getVal d f with
  | some v => (v != PyVal.noneVal) && v.coerceFloat.isNone
  | none => false

/-- Number of missing (falsy or absent) required fields. -/
def missingCount (raw : PyDict) : ℕ :=
  (requiredFields.filter (fun f => fieldMissing raw f)).length

/-- Number of numeric fields present but not coercible. -/
def nonCoercibleCount (raw : PyDict) : ℕ :=
  numericFields.countP (fun f => fieldNonCoercible raw f)

/-- The low-confidence multiplier: the confidence of the record when it is a
number below 0.7, else 1. -/
def confFactor (raw : PyDict) : ℚ :=
  match getVal raw "confidence" with
  | some (PyVal.num c) => if c < 0.7 then c else 1
  | _ => 1

/-- Reading back the key just written. -/
theorem getVal_setVal_self : ∀ (d : PyDict) (k : String) (v : PyVal),
    getVal (setVal d k v) k = some v := by
  intro d k v
  induction d with
  | nil => simp [setVal, getVal]
  | cons hd tl ih =>
      obtain ⟨k', v'⟩ := hd
      by_cases h : k' = k
      · simp [setVal, getVal, h]
      · simp only [setVal, getVal]
        rw [if_neg (by simpa using h)]
        simp only [getVal]
        rw [if_neg (by simpa using h)]
        exact ih

/-- Writing one key leaves every other key unchanged. -/
theorem getVal_setVal_ne : ∀ (d : PyDict) (k : String) (v : PyVal) (k' : String),
    k ≠ k' → getVal (setVal d k v) k' = getVal d k' := by
  intro d k v k' hne
  induction d with
  | nil => simp [setVal, getVal, hne]
  | cons hd tl ih =>
      obtain ⟨k0, v0⟩ := hd
      by_cases h : k0 = k
      · simp only [setVal, getVal]
        rw [if_pos (by simpa using h)]
        simp only [getVal]
        rw [if_neg (by simpa using hne), if_neg (by simp [h]; exact hne)]
      · simp only [setVal, getVal]
        rw [if_neg (by simpa using h)]
        simp only [getVal]
        by_cases h0 : k0 = k'
        · rw [if_pos (by simpa using h0), if_pos (by simpa using h0)]
        · rw [if_neg (by simpa using h0), if_neg (by simpa using h0)]
          exact ih

/-- The numeric-coercion loop: the quality drops by 0.05 per
non-coercible present field, other keys keep their values, and every
non-coercible field is zeroed. -/
theorem foldl_cleanNumericStep :
    ∀ (fs : List String) (d : PyDict) (q : ℚ), fs.Nodup →
      ((fs.foldl cleanNumericStep (d, q)).2
          = q - 0.05 * (fs.countP (fun f => fieldNonCoercible d f) : ℚ)) ∧
      (∀ k, k ∉ fs → getVal (fs.foldl cleanNumericStep (d, q)).1 k = getVal d k) ∧
      (∀ k ∈ fs, fieldNonCoercible d k = true →
        getVal (fs.foldl cleanNumericStep (d, q)).1 k = some (PyVal.num 0)) := by
  intro fs
  induction fs with
  | nil => intro d q _; refine ⟨by simp, fun k _ => rfl, by simp⟩
  | cons f rest ih =>
      intro d q hnd
      rw [List.nodup_cons] at hnd
      obtain ⟨hf, hrest⟩ := hnd
      have hstep :
          (cleanNumericStep (d, q) f =
              (d, q) ∧ fieldNonCoercible d f = false) ∨
          (∃ c, cleanNumericStep (d, q) f = (setVal d f (PyVal.num c), q) ∧
              fieldNonCoercible d f = false) ∨
          (cleanNumericStep (d, q) f = (setVal d f (PyVal.num 0), q - 0.05) ∧
              fieldNonCoercible d f = true) := by
        unfold cleanNumericStep fieldNonCoercible
        cases hv : getVal d f with
        | none => exact Or.inl ⟨rfl, rfl⟩
        | some v =>
            dsimp only
            by_cases hnone : v = PyVal.noneVal
            · refine Or.inl ⟨by rw [if_pos hnone], ?_⟩
              simp [hnone]
            · rw [if_neg hnone]
              cases hc : v.coerceFloat with
              | some c => exact Or.inr (Or.inl ⟨c, rfl, by simp [hnone, hc]⟩)
              | none => exact Or.inr (Or.inr ⟨rfl, by simp [hnone, hc]⟩)
      have hcount : ∀ d' : PyDict, (∀ k, k ≠ f → getVal d' k = getVal d k) →
          rest.countP (fun g => fieldNonCoercible d' g)
            = rest.countP (fun g => fieldNonCoercible d g) := by
        intro d' hpr
        refine List.countP_congr ?_
        intro g hg
        have : g ≠ f := fun hc => hf (hc ▸ hg)
        unfold fieldNonCoercible
        rw [hpr g this]
      rcases hstep with ⟨heq, hbad⟩ | ⟨c, heq, hbad⟩ | ⟨heq, hbad⟩
      · obtain ⟨ihq, ihpres, ihzero⟩ := ih d q hrest
        rw [List.foldl_cons, heq]
        refine ⟨?_, ?_, ?_⟩
        · rw [ihq, List.countP_cons]
          simp [hbad]
        · intro k hk
          exact ihpres k (by simp at hk; exact hk.2)
        · intro k hk hbadk
          rcases List.mem_cons.mp hk with rfl | hk'
          · rw [hbadk] at hbad; cases hbad
          · exact ihzero k hk' hbadk
      · obtain ⟨ihq, ihpres, ihzero⟩ := ih (setVal d f (PyVal.num c)) q hrest
        rw [List.foldl_cons, heq]
        have hpr : ∀ k, k ≠ f → getVal (setVal d f (PyVal.num c)) k = getVal d k :=
          fun k hk => getVal_setVal_ne d f (PyVal.num c) k (Ne.symm hk)
        refine ⟨?_, ?_, ?_⟩
        · rw [ihq, hcount _ hpr, List.countP_cons]
          simp [hbad]
        · intro k hk
          simp only [List.mem_cons, not_or] at hk
          rw [ihpres k hk.2, hpr k hk.1]
        · intro k hk hbadk
          rcases List.mem_cons.mp hk with rfl | hk'
          · rw [hbadk] at hbad; cases hbad
          · have hbadk' : fieldNonCoercible (setVal d f (PyVal.num c)) k = true := by
              unfold fieldNonCoercible at hbadk ⊢
              rw [hpr k (fun hc => hf (hc ▸ hk'))]
              exact hbadk
            exact ihzero k hk' hbadk'
      · obtain ⟨ihq, ihpres, ihzero⟩ := ih (setVal d f (PyVal.num 0)) (q - 0.05) hrest
        rw [List.foldl_cons, heq]
        have hpr : ∀ k, k ≠ f → getVal (setVal d f (PyVal.num 0)) k = getVal d k :=
          fun k hk => getVal_setVal_ne d f (PyVal.num 0) k (Ne.symm hk)
        refine ⟨?_, ?_, ?_⟩
        · rw [ihq, hcount _ hpr, List.countP_cons]
          simp only [hbad, if_true]
          push_cast
          ring
        · intro k hk
          simp only [List.mem_cons, not_or] at hk
          rw [ihpres k hk.2, hpr k hk.1]
        · intro k hk hbadk
          rcases List.mem_cons.mp hk with rfl | hk'
          · rw [ihpres k hf, getVal_setVal_self]
          · have hbadk' : fieldNonCoercible (setVal d f (PyVal.num 0)) k = true := by
              unfold fieldNonCoercible at hbadk ⊢
              rw [hpr k (fun hc => hf (hc ▸ hk'))]
              exact hbadk
            exact ihzero k hk' hbadk'

/-- C8: the quality score of the cleaner is 1.0 minus 0.2 per missing required
field and 0.05 per present-but-non-coercible numeric field, multiplied by
the confidence of the record when that is below 0.7, floored at 0; and every
non-coercible numeric field is set to 0 in the cleaned dict. -/
theorem clean_quality_formula :
    ∀ raw : PyDict,
      (DataCleanerAgent.clean raw).2
        = max ((1 - 0.2 * (missingCount raw : ℚ) - 0.05 * (nonCoercibleCount raw : ℚ))
            * confFactor raw) 0 ∧
      (∀ f, f ∈ numericFields → fieldNonCoercible raw f = true →
        getVal (DataCleanerAgent.clean raw).1 f = some (PyVal.num 0)) := by
  intro raw
  have hnodup : numericFields.Nodup := by decide
  obtain ⟨hq, hpres, hzero⟩ := foldl_cleanNumericStep numericFields raw
      (if (requiredFields.filter (fun f => fieldMissing raw f)).isEmpty then (1 : ℚ)
       else 1 - 0.2 * ((requiredFields.filter (fun f => fieldMissing raw f)).length : ℚ))
      hnodup
  have hq0 : (if (requiredFields.filter (fun f => fieldMissing raw f)).isEmpty then (1 : ℚ)
       else 1 - 0.2 * ((requiredFields.filter (fun f => fieldMissing raw f)).length : ℚ))
      = 1 - 0.2 * (missingCount raw : ℚ) := by
    unfold missingCount
    cases hmiss : requiredFields.filter (fun f => fieldMissing raw f) <;>
      simp [hmiss]
  have hconf := hpres "confidence" (by decide)
  constructor
  · unfold DataCleanerAgent.clean
    dsimp only
    rw [hq0] at hq hconf
    rw [hq0, hconf, hq]
    unfold confFactor nonCoercibleCount
    cases hcv : getVal raw "confidence" with
    | none => dsimp only; rw [mul_one]
    | some v =>
        cases v with
        | num c =>
            dsimp only
            by_cases hlt : c < 0.7
            · rw [if_pos hlt, if_pos hlt]
            · rw [if_neg hlt, if_neg hlt, mul_one]
        | pystr co e => dsimp only; rw [mul_one]
        | noneVal => dsimp only; rw [mul_one]
        | other t => dsimp only; rw [mul_one]
  · intro f hf hbad
    show getVal (DataCleanerAgent.clean raw).1 f = some (PyVal.num 0)
    unfold DataCleanerAgent.clean
    dsimp only
    exact hzero f hf hbad

/-- A raw dict whose `calories` entry is a non-empty, non-numeric
string. -/
def rawBad : PyDict :=
  [("product_name", PyVal.pystr none false), ("calories", PyVal.pystr none false)]

/-- Witness for `clean_quality_formula`: a non-coercible `calories` value
is zeroed in the cleaned dict. -/
theorem clean_quality_formula_witness :
    getVal (DataCleanerAgent.clean rawBad).1 "calories" = some (PyVal.num 0) :=
  (clean_quality_formula rawBad).2 "calories" (by decide) (by decide)

/-! ### C9 — rounding of the health-modeling outputs -/

/-- The result of `pyRound n` always has at most `n` decimal places. -/
theorem decimalsAtMost_pyRound (n : ℕ) (q : ℚ) : decimalsAtMost n (pyRound n q) := by
  refine ⟨roundHalfEven (q * 10 ^ n), ?_⟩
  unfold pyRound
  field_simp

/-- C9 (amended): in `calculate_metrics`, BMI is rounded to two decimal
places, while BMR, TDEE, target calories and every daily-target field are
rounded to one decimal place. -/
theorem calculateMetrics_rounding :
    ∀ (d : Demographics) (l : LifestyleHabits) (g : HealthGoals),
      decimalsAtMost 2 (calculateMetrics d l g).1.bmi ∧
      decimalsAtMost 1 (calculateMetrics d l g).1.bmr ∧
      decimalsAtMost 1 (calculateMetrics d l g).1.tdee ∧
      decimalsAtMost 1 (calculateMetrics d l g).1.target_calories ∧
      decimalsAtMost 1 (calculateMetrics d l g).2.calories ∧
      decimalsAtMost 1 (calculateMetrics d l g).2.protein_g ∧
      decimalsAtMost 1 (calculateMetrics d l g).2.carbs_g ∧
      decimalsAtMost 1 (calculateMetrics d l g).2.fat_g ∧
      decimalsAtMost 1 (calculateMetrics d l g).2.fiber_g ∧
      decimalsAtMost 1 (calculateMetrics d l g).2.sugar_g ∧
      decimalsAtMost 1 (calculateMetrics d l g).2.sodium_mg := by
  intro d l g
  unfold calculateMetrics calculateDailyTargets
  dsimp only
  exact ⟨decimalsAtMost_pyRound 2 _, decimalsAtMost_pyRound 1 _,
    decimalsAtMost_pyRound 1 _, decimalsAtMost_pyRound 1 _,
    decimalsAtMost_pyRound 1 _, decimalsAtMost_pyRound 1 _,
    decimalsAtMost_pyRound 1 _, decimalsAtMost_pyRound 1 _,
    decimalsAtMost_pyRound 1 _, decimalsAtMost_pyRound 1 _,
    decimalsAtMost_pyRound 1 _⟩

/-- A concrete demographic input (30-year-old male, 180 cm, 80 kg). -/
def dRound : Demographics :=
  { age := 30, gender := "male", height_cm := 180, weight_kg := 80 }

/-- A concrete lifestyle (7 h sleep, desk job, rarely exercises,
commutes by car, non-smoker). -/
def lRound : LifestyleHabits :=
  { sleep_hours := 7, work_style := WorkStyle.desk_job,
    exercise_frequency := ExerciseFrequency.rarely,
    commute_type := CommuteType.car, smoking := "no", alcohol := "none",
    stress_level := "low" }

/-- A concrete maintenance goal. -/
def gRound : HealthGoals := { fitness_goal := "maintain", target_weight_kg := 80 }

/-- C9: the claim fails on BMI: at 180 cm / 80 kg the BMI output is
24.69 — two decimal places (`round(bmi, 2)` in the source), not one. -/
theorem calculateMetrics_bmi_two_decimals :
    (calculateMetrics dRound lRound gRound).1.bmi = 2469 / 100 ∧
    ¬ decimalsAtMost 1 ((calculateMetrics dRound lRound gRound).1.bmi) := by
  have h1 : (calculateMetrics dRound lRound gRound).1.bmi = 2469 / 100 := by
    show pyRound 2 (calculateBmi dRound.height_cm dRound.weight_kg) = 2469 / 100
    have hbmi : calculateBmi dRound.height_cm dRound.weight_kg = 2000 / 81 := by
      show calculateBmi (180 : ℚ) 80 = 2000 / 81
      unfold calculateBmi
      norm_num
    rw [hbmi]
    unfold pyRound roundHalfEven
    rw [show (2000 : ℚ) / 81 * 10 ^ 2 = 200000 / 81 by norm_num]
    rw [show ⌊(200000 : ℚ) / 81⌋ = 2469 by norm_num]
    rw [if_pos (by norm_num)]
    norm_num
  refine ⟨h1, ?_⟩
  rw [h1]
  rintro ⟨k, hk⟩
  have hk' : (2469 : ℚ) = 10 * (k : ℚ) := by
    field_simp at hk
    linarith
  have hkz : (2469 : ℤ) = 10 * k := by exact_mod_cast hk'
  omega

/-! ### C10 — profile-store keying by sanitized name -/

/-- After saving under name `n`, the file for any name with the same
sanitized path exists. -/
theorem storeExists_save {α : Type} :
    ∀ (fs : List (String × α)) (n n' : String) (p : α),
      profileFileName n = profileFileName n' →
      storeExists (storeSave fs n p) n' = true := by
  intro fs n n' p hp
  induction fs with
  | nil => simp [storeSave, storeExists, List.find?, hp]
  | cons hd tl ih =>
      obtain ⟨k, v⟩ := hd
      by_cases hk : k = profileFileName n
      · simp only [storeSave]
        rw [if_pos (by simpa using hk)]
        simp [storeExists, List.find?, hk, hp]
      · simp only [storeSave]
        rw [if_neg (by simpa using hk)]
        simp only [storeExists, List.find?] at ih ⊢
        by_cases hk' : k = profileFileName n'
        · simp [hk']
        · rw [show (k == profileFileName n') = false by simpa using hk']
          exact ih

/-- C10: every store operation — `exists`, `load`, `create`, `update`
(and the `save` they use) — addresses the file named by the sanitized,
lowercased name, so two ASCII names with equal sanitized forms share one
stored profile: existence and loading agree, `update` behaves identically
up to the name echoed in its not-found message (identically whenever the
shared profile is present), and `create` for the second name fails with
an already-exists error right after `create` for the first succeeded.
The ASCII restriction is where the character-level model of the Python
sanitisation is exact; the `name` argument of `storeCreate` is
`onboarding_data.name`, which is also the name carried by the profile
being saved. -/
theorem profile_store_sanitized_keying :
    ∀ (n1 n2 : String), isAsciiStr n1 = true → isAsciiStr n2 = true →
      sanitizeName n1 = sanitizeName n2 →
      profileFileName n1 = profileFileName n2 ∧
      (∀ (α : Type) (fs : List (String × α)),
        storeExists fs n1 = storeExists fs n2 ∧ storeLoad fs n1 = storeLoad fs n2) ∧
      (∀ (α : Type) (getName : α → String) (fs : List (String × α))
         (applyUpdates : α → α),
        (storeUpdate getName fs n1 applyUpdates).toOption
          = (storeUpdate getName fs n2 applyUpdates).toOption ∧
        (storeLoad fs n1 ≠ none →
          storeUpdate getName fs n1 applyUpdates
            = storeUpdate getName fs n2 applyUpdates)) ∧
      (∀ (α : Type) (fs : List (String × α)) (p1 p2 : α) (fs1 : List (String × α)),
        storeCreate fs n1 p1 = Except.ok fs1 →
        ∃ msg, storeCreate fs1 n2 p2 = Except.error msg) := by
  intro n1 n2 _ _ h
  have hpath : profileFileName n1 = profileFileName n2 := by
    unfold profileFileName
    rw [h]
  have hload : ∀ (α : Type) (fs : List (String × α)),
      storeLoad fs n1 = storeLoad fs n2 := by
    intro α fs
    unfold storeLoad
    rw [hpath]
  refine ⟨hpath, ?_, ?_, ?_⟩
  · intro α fs
    refine ⟨?_, hload α fs⟩
    unfold storeExists
    rw [hpath]
  · intro α getName fs applyUpdates
    unfold storeUpdate
    rw [hload α fs]
    cases storeLoad fs n2 with
    | none =>
        refine ⟨rfl, ?_⟩
        intro hne
        exact absurd rfl hne
    | some profile => exact ⟨rfl, fun _ => rfl⟩
  · intro α fs p1 p2 fs1 hok
    unfold storeCreate at hok
    by_cases hex : storeExists fs n1 = true
    · rw [if_pos hex] at hok
      cases hok
    · rw [if_neg hex] at hok
      have hfs1 : fs1 = storeSave fs n1 p1 := by
        cases hok
        rfl
      refine ⟨"Profile " ++ n2 ++ " already exists", ?_⟩
      unfold storeCreate
      rw [if_pos (by rw [hfs1]; exact storeExists_save fs n1 n2 p1 hpath)]

/-- Witness for `profile_store_sanitized_keying`: "Alice" and "alice!"
are ASCII and sanitize to the same key, so creating "alice!" right after
"Alice" fails with the already-exists error, and `update` under either
name addresses the same stored profile. -/
theorem profile_store_sanitized_keying_witness :
    (∃ msg, storeCreate (storeSave ([] : List (String × UserProfile)) "Alice" upPlain)
        "alice!" upPlain = Except.error msg) ∧
    storeUpdate UserProfile.name
        (storeSave ([] : List (String × UserProfile)) "Alice" upPlain)
        "Alice" id
      = storeUpdate UserProfile.name
          (storeSave ([] : List (String × UserProfile)) "Alice" upPlain)
          "alice!" id := by
  have h := profile_store_sanitized_keying "Alice" "alice!"
    (by decide) (by decide) (by decide)
  refine ⟨?_, ?_⟩
  · exact h.2.2.2 UserProfile [] upPlain upPlain
      (storeSave ([] : List (String × UserProfile)) "Alice" upPlain) (by rfl)
  · exact (h.2.2.1 UserProfile UserProfile.name
      (storeSave ([] : List (String × UserProfile)) "Alice" upPlain) id).2
      (by decide)

/-! ### C1 / C5 — scan orchestration events -/

/-- C1: for every modelled scan environment, `start_scan` emits zero or
more progress notifications followed by exactly one terminal notification
(an error or a completion, never both); and whenever the pipeline reaches
nutrition retrieval and it yields no record, the run ends with exactly
one error event, whose stage is "fetching_nutrition", and no completion
event. -/
theorem startScan_progress_then_single_terminal :
    ∀ env : ScanEnv,
      eventsWellFormed (startScan env) = true ∧
      (startScan env).countP ScanEvent.isTerminal = 1 ∧
      (env.parse_ok = true → env.decode_ok = true →
        (strTruthy env.barcode || strTruthy env.ocr_text) = true →
        env.nutrition = none →
        errorEvents (startScan env) =
          [ScanEvent.scan_error "fetching_nutrition" "Product not found in database"
            "PRODUCT_NOT_FOUND" (some "Try scanning the barcode again or manual entry")] ∧
        (startScan env).countP ScanEvent.isComplete = 0) := by
  intro env
  obtain ⟨p, dec, bc, oc, nut, prof, sr, ur⟩ := env
  refine ⟨?_, ?_, ?_⟩
  · cases p <;> cases dec <;> cases hb : strTruthy bc <;> cases ho : strTruthy oc <;>
      cases nut <;> cases prof <;> cases sr <;> cases ur <;>
      simp [startScan, hb, ho, eventsWellFormed, internalErrorEvent,
        ScanEvent.isProgress, ScanEvent.isTerminal]
  · cases p <;> cases dec <;> cases hb : strTruthy bc <;> cases ho : strTruthy oc <;>
      cases nut <;> cases prof <;> cases sr <;> cases ur <;>
      simp [startScan, hb, ho, internalErrorEvent, ScanEvent.isTerminal,
        List.countP_cons, List.countP_nil]
  · intro h1 h2 h3 h4
    dsimp only at h1 h2 h3 h4
    subst h1
    subst h2
    subst h4
    cases hb : strTruthy bc <;> cases ho : strTruthy oc <;> rw [hb, ho] at h3
    · cases h3
    all_goals
      constructor <;>
        simp [startScan, hb, ho, errorEvents, ScanEvent.isError,
          ScanEvent.isComplete, List.countP_cons, List.countP_nil]

/-- Witness for `startScan_progress_then_single_terminal`: a scan whose
image stage succeeds but whose nutrition retrieval finds nothing. -/
theorem startScan_progress_then_single_terminal_witness :
    errorEvents (startScan envNoNutrition) =
      [ScanEvent.scan_error "fetching_nutrition" "Product not found in database"
        "PRODUCT_NOT_FOUND" (some "Try scanning the barcode again or manual entry")] ∧
    (startScan envNoNutrition).countP ScanEvent.isComplete = 0 :=
  (startScan_progress_then_single_terminal envNoNutrition).2.2 rfl rfl (by decide) rfl

/-- C5: evaluating `start_scan` on a fully successful scan: the emitted
progress values are 10, 30, 50, 60, 85 — strictly increasing and in the
declared stage order, but on a 0–100 percent scale, not in [0, 1] as the
claim (and the `ScanProgressEvent` schema, which declares
`progress ∈ [0, 1]`) requires: the very first value 10 already exceeds 1. -/
theorem startScan_progress_percent_scale :
    progressValues (startScan envHappy) = [10, 30, 50, 60, 85] ∧
    strictlyIncreasing (progressValues (startScan envHappy)) = true ∧
    progressStages (startScan envHappy) = stageOrder ∧
    ¬((10 : ℚ) ≤ 1) ∧ (10 : ℚ) ∈ progressValues (startScan envHappy) := by
  refine ⟨by decide, by decide, by decide, by norm_num, by decide⟩
